import Mathlib

/-!
Verification of the per-user rate-limit gate.

The embedding models the two TypeScript implementations of the gate:

* `Queries` — `src/server/db/queries.ts`: `DAILY_REQUEST_LIMIT`,
  `getUserDailyRequestCount`, `addUserRequest`, `isUserAdmin`,
  `checkRateLimit` (returns a full `RateLimitDecision`).
* `Route` — the route module: `REQUESTS_PER_DAY`, `checkRateLimit`
  (returns a bare boolean), `recordRequest`, and the `POST` handler.

Time is epoch milliseconds (`Int`).  JavaScript `Date.setUTCHours(0,0,0,0)`
truncates to UTC midnight; `Date.setHours(0,0,0,0)` truncates to midnight of
the server's local timezone, which we model with an explicit
`tzOffsetMin` parameter equal to JavaScript `Date.getTimezoneOffset()`
(UTC minus local wall time, in minutes; `0` when the server runs in UTC).
The database tables are lists of rows; an SQL `count` select produces a
one-row result list, mirroring the `result[0]?.count || 0` / `?? 0`
access patterns of the source.
-/

/-- Milliseconds per calendar day. -/
def msPerDay : Int := 86400000

/-- A row of the usage ledger (`userRequests` in queries.ts, `requests` in the
route module): one metered action, with its creation timestamp (epoch ms UTC,
defaulted to the insertion instant by the schema). -/
structure UsageRecord where
  userId : String
  createdAt : Int
deriving DecidableEq

/-- A row of the `users` table as the gate reads it. -/
structure User where
  id : String
  isAdmin : Bool
deriving DecidableEq

/-- JavaScript `d = new Date(now); d.setUTCHours(0,0,0,0)`: the current UTC
instant truncated to UTC midnight. -/
def startOfUTCDay (now : Int) : Int :=
  now - now % msPerDay

/-- JavaScript `d = new Date(now); d.setHours(0,0,0,0)`: the current instant
truncated to midnight of the server's local timezone, whose offset is
`tzOffsetMin` minutes (the value of `Date.getTimezoneOffset()`). -/
def startOfLocalDay (tzOffsetMin now : Int) : Int :=
  let localNow := now - tzOffsetMin * 60000
  localNow - localNow % msPerDay + tzOffsetMin * 60000

/-- The rows of `tbl` belonging to `userId` with `createdAt >= since`: the
WHERE clause `and(eq(·.userId, userId), gte(·.createdAt, since))` shared by
both count queries. -/
def rowsSince (tbl : List UsageRecord) (userId : String) (since : Int) : List UsageRecord :=
  tbl.filter (fun r => r.userId == userId && decide (since ≤ r.createdAt))

/-- The spec's `countUsageSince(userId, since)`: the value of
`SELECT count(*)` over `rowsSince`. -/
def countSince (tbl : List UsageRecord) (userId : String) (since : Int) : Int :=
  ((rowsSince tbl userId since).length : Int)

namespace Queries

/-- `const DAILY_REQUEST_LIMIT = 1` in queries.ts. -/
def DAILY_REQUEST_LIMIT : Int := 1

/-- JavaScript `result[0]?.count || 0`: `none` models an absent first row,
`some c` a present row whose count column is `c`; a count of `0` is falsy,
so `0 || 0` is still `0`. -/
def jsCountOrZero (x : Option Int) : Int :=
  match x with
  | none => 0
  | some c => if c = 0 then 0 else c

/-- `getUserDailyRequestCount` in queries.ts: count the user's rows with
`createdAt >= today` where `today` was truncated with `setHours(0,0,0,0)`
(local midnight), then read the single aggregate row as
`result[0]?.count || 0`. -/
def getUserDailyRequestCount (userRequests : List UsageRecord)
    (tzOffsetMin now : Int) (userId : String) : Int :=
  let today := startOfLocalDay tzOffsetMin now
  let result : List Int := [countSince userRequests userId today]
  jsCountOrZero result.head?

/-- `addUserRequest` in queries.ts: insert one row for `userId`; the schema
fills `createdAt` with the current instant. -/
def addUserRequest (userRequests : List UsageRecord) (now : Int)
    (userId : String) : List UsageRecord :=
  userRequests ++ [{ userId := userId, createdAt := now }]

/-- `isUserAdmin` in queries.ts: select the first `users` row with matching
id (`.limit(1)` then `user[0]?`), and read `isAdmin || false`. -/
def isUserAdmin (users : List User) (userId : String) : Bool :=
  match (users.filter (fun u => u.id == userId)).head? with
  | none => false
  | some u => u.isAdmin || false

/-- The record returned by `checkRateLimit` in queries.ts. -/
structure RateLimitDecision where
  allowed : Bool
  remaining : Int
  limit : Int
deriving DecidableEq

/-- `checkRateLimit` in queries.ts: admins get the `(-1, -1)` unlimited
sentinel; otherwise the daily count is compared against
`DAILY_REQUEST_LIMIT` and `remaining = Math.max(0, limit - count)`. -/
def checkRateLimit (users : List User) (userRequests : List UsageRecord)
    (tzOffsetMin now : Int) (userId : String) : RateLimitDecision :=
  if isUserAdmin users userId then
    { allowed := true, remaining := -1, limit := -1 }
  else
    let dailyCount := getUserDailyRequestCount userRequests tzOffsetMin now userId
    let remaining := max 0 (DAILY_REQUEST_LIMIT - dailyCount)
    { allowed := decide (dailyCount < DAILY_REQUEST_LIMIT)
      remaining := remaining
      limit := DAILY_REQUEST_LIMIT }

end Queries

/-- A row of the `chats` table, as far as the ownership check reads it. -/
structure Chat where
  id : String
  userId : String
deriving DecidableEq

/-- The parsed body of a POST request: the messages array (only the content
strings matter to the handler's control flow) and an optional chat id. -/
structure ChatBody where
  messages : List String
  chatId : Option String
deriving DecidableEq

/-- The observable outcome of the POST handler: the HTTP status of the
response and the usage ledger after the handler ran. -/
structure PostResult where
  status : Int
  requests : List UsageRecord
deriving DecidableEq

namespace Route

/-- `const REQUESTS_PER_DAY = 1` in the route module. -/
def REQUESTS_PER_DAY : Int := 1

/-- `checkRateLimit` in the route module: `findFirst` the user, return true
if `user?.isAdmin` is truthy, otherwise count the user's requests with
`timestamp >= startOfDay` where `startOfDay` was truncated with
`setUTCHours(0,0,0,0)`, read the aggregate as `requestCount[0]?.count ?? 0`,
and compare against `REQUESTS_PER_DAY`. -/
def checkRateLimit (users : List User) (requests : List UsageRecord)
    (now : Int) (userId : String) : Bool :=
  let user := (users.filter (fun u => u.id == userId)).head?
  if (user.map User.isAdmin).getD false then
    true
  else
    let startOfDay := startOfUTCDay now
    let requestCount : List Int := [countSince requests userId startOfDay]
    decide (requestCount.head?.getD 0 < REQUESTS_PER_DAY)

/-- `recordRequest` in the route module: insert one row for `userId`; the
schema fills the timestamp with the current instant. -/
def recordRequest (requests : List UsageRecord) (now : Int)
    (userId : String) : List UsageRecord :=
  requests ++ [{ userId := userId, createdAt := now }]

/-- The POST handler of the route module, reduced to its control flow over
the modelled state: 401 without a session; 429 when the rate limit check
denies; otherwise `recordRequest` runs, then empty messages give 400, a
supplied chatId owned by someone else (or unknown) gives 404, and every
other path reaches the streaming response (modelled as status 200). -/
def POST (session : Option String) (body : ChatBody) (users : List User)
    (chats : List Chat) (requests : List UsageRecord) (now : Int) : PostResult :=
  match session with
  | none => { status := 401, requests := requests }
  | some uid =>
    if checkRateLimit users requests now uid then
      let requests2 := recordRequest requests now uid
      if body.messages.length = 0 then
        { status := 400, requests := requests2 }
      else
        match body.chatId with
        | none => { status := 200, requests := requests2 }
        | some cid =>
          match (chats.filter (fun c => c.id == cid)).head? with
          | none => { status := 404, requests := requests2 }
          | some chat =>
            if chat.userId == uid then
              { status := 200, requests := requests2 }
            else
              { status := 404, requests := requests2 }
    else
      { status := 429, requests := requests }

end Route

/-- `c || 0` on a present aggregate row is the count itself. -/
theorem jsCountOrZero_some (c : Int) : Queries.jsCountOrZero (some c) = c := by
  simp only [Queries.jsCountOrZero]
  split <;> omega

/-- The daily-count query is `countSince` at the local-midnight window start:
the one-row aggregate pipeline and the `|| 0` guard collapse. -/
theorem getUserDailyRequestCount_eq_countSince (tbl : List UsageRecord)
    (tz now : Int) (uid : String) :
    Queries.getUserDailyRequestCount tbl tz now uid
      = countSince tbl uid (startOfLocalDay tz now) := by
  show Queries.jsCountOrZero (some (countSince tbl uid (startOfLocalDay tz now))) = _
  exact jsCountOrZero_some _

/-- A count is never negative. -/
theorem countSince_nonneg (tbl : List UsageRecord) (uid : String) (s : Int) :
    0 ≤ countSince tbl uid s :=
  Int.natCast_nonneg _

/-- Appending one record for `uid` at instant `now` raises `countSince` by one
exactly when the window contains `now`. -/
theorem countSince_append_self (tbl : List UsageRecord) (uid : String) (now s : Int) :
    countSince (tbl ++ [⟨uid, now⟩]) uid s
      = countSince tbl uid s + (if s ≤ now then 1 else 0) := by
  unfold countSince rowsSince
  rw [List.filter_append]
  by_cases h : s ≤ now <;> simp [List.filter, h]

/-- Truncating to local midnight never moves forward in time. -/
theorem startOfLocalDay_le (tz now : Int) : startOfLocalDay tz now ≤ now := by
  show (now - tz * 60000) - (now - tz * 60000) % msPerDay + tz * 60000 ≤ now
  unfold msPerDay
  omega

/-- With a zero timezone offset, local midnight is UTC midnight. -/
theorem startOfLocalDay_zero (now : Int) :
    startOfLocalDay 0 now = startOfUTCDay now := by
  show (now - 0 * 60000) - (now - 0 * 60000) % msPerDay + 0 * 60000
      = now - now % msPerDay
  norm_num

/-- `isUserAdmin` written with the option combinators used by the route
module's lookup. -/
theorem isUserAdmin_eq_lookup (users : List User) (uid : String) :
    Queries.isUserAdmin users uid
      = ((users.filter (fun u => u.id == uid)).head?.map User.isAdmin).getD false := by
  unfold Queries.isUserAdmin
  cases (users.filter (fun u => u.id == uid)).head? <;> simp

/-- A user id matching no row of the `users` table yields an empty filter. -/
theorem filter_users_absent (users : List User) (uid : String)
    (h : ∀ u ∈ users, u.id ≠ uid) :
    users.filter (fun u => u.id == uid) = [] := by
  induction users with
  | nil => rfl
  | cons u rest ih =>
    have hu : u.id ≠ uid := h u (List.mem_cons_self u rest)
    simp only [List.filter]
    rw [show (u.id == uid) = false by simpa using hu]
    exact ih (fun v hv => h v (List.mem_cons_of_mem u hv))

/-- An absent user is not an admin. -/
theorem isUserAdmin_of_absent (users : List User) (uid : String)
    (h : ∀ u ∈ users, u.id ≠ uid) : Queries.isUserAdmin users uid = false := by
  unfold Queries.isUserAdmin
  rw [filter_users_absent users uid h]
  rfl

/-- The non-admin branch of `Queries.checkRateLimit`, spelled out. -/
theorem checkRateLimit_nonadmin (users : List User) (tbl : List UsageRecord)
    (tz now : Int) (uid : String) (h : Queries.isUserAdmin users uid = false) :
    Queries.checkRateLimit users tbl tz now uid =
      { allowed := decide (countSince tbl uid (startOfLocalDay tz now)
                     < Queries.DAILY_REQUEST_LIMIT)
        remaining := max 0 (Queries.DAILY_REQUEST_LIMIT
                       - countSince tbl uid (startOfLocalDay tz now))
        limit := Queries.DAILY_REQUEST_LIMIT } := by
  unfold Queries.checkRateLimit
  rw [h]
  simp [getUserDailyRequestCount_eq_countSince]

/-- A window start later than every record's timestamp selects no rows. -/
theorem rowsSince_eq_nil_of_lt (tbl : List UsageRecord) (uid : String) (s : Int)
    (h : ∀ r ∈ tbl, r.createdAt < s) : rowsSince tbl uid s = [] := by
  apply List.filter_eq_nil_iff.mpr
  intro r hr
  have := h r hr
  simp only [Bool.and_eq_true, decide_eq_true_eq, not_and]
  intro _
  omega

/-- C1: for every non-privileged user, `checkRateLimit` returns
`limit = DAILY_REQUEST_LIMIT`, `remaining = max 0 (limit - n)` and
`allowed = (n < limit)`, where `n` is the count of the user's usage records
in the current day window; in particular `remaining` is never negative. -/
theorem C1_nonprivileged_decision (users : List User) (tbl : List UsageRecord)
    (tz now : Int) (uid : String)
    (h : Queries.isUserAdmin users uid = false) :
    Queries.checkRateLimit users tbl tz now uid =
      { allowed := decide (countSince tbl uid (startOfLocalDay tz now)
                     < Queries.DAILY_REQUEST_LIMIT)
        remaining := max 0 (Queries.DAILY_REQUEST_LIMIT
                       - countSince tbl uid (startOfLocalDay tz now))
        limit := Queries.DAILY_REQUEST_LIMIT } ∧
    0 ≤ (Queries.checkRateLimit users tbl tz now uid).remaining := by
  refine ⟨checkRateLimit_nonadmin users tbl tz now uid h, ?_⟩
  rw [checkRateLimit_nonadmin users tbl tz now uid h]
  exact le_max_left 0 _

/-- C1 at a concrete non-privileged user and ledger. -/
theorem C1_witness :
    Queries.isUserAdmin [⟨"u", false⟩] "u" = false ∧
    0 ≤ (Queries.checkRateLimit [⟨"u", false⟩] [⟨"u", 5⟩] 0 10 "u").remaining :=
  ⟨by decide, (C1_nonprivileged_decision [⟨"u", false⟩] [⟨"u", 5⟩] 0 10 "u" (by decide)).2⟩

/-- C2 fails on queries.ts: with the server timezone at UTC+1
(`getTimezoneOffset() = -60`), the window start computed by
`getUserDailyRequestCount` at 2024-01-02T00:00:01Z (epoch ms 1704153601000)
is 2024-01-01T23:00:00Z rather than UTC midnight, and the record from
2024-01-01T23:59:59Z (epoch ms 1704153599000) IS counted. -/
theorem C2_counterexample :
    startOfLocalDay (-60) 1704153601000 ≠ startOfUTCDay 1704153601000 ∧
    Queries.getUserDailyRequestCount [⟨"u", 1704153599000⟩] (-60) 1704153601000 "u" = 1 := by
  decide

/-- C2 (amended): the route module truncates with `setUTCHours`, so its
window start is UTC midnight; queries.ts truncates with `setHours` (local
midnight), which coincides with UTC midnight exactly when the server
timezone offset is zero.  Under a zero offset, records from a previous UTC
calendar day are counted by neither query. -/
theorem C2_amended_utc_window (tbl : List UsageRecord) (now : Int) (uid : String)
    (h : ∀ r ∈ tbl, r.createdAt < startOfUTCDay now) :
    startOfLocalDay 0 now = startOfUTCDay now ∧
    Queries.getUserDailyRequestCount tbl 0 now uid = 0 ∧
    countSince tbl uid (startOfUTCDay now) = 0 := by
  have hnil : rowsSince tbl uid (startOfUTCDay now) = [] :=
    rowsSince_eq_nil_of_lt tbl uid (startOfUTCDay now) h
  refine ⟨startOfLocalDay_zero now, ?_, ?_⟩
  · rw [getUserDailyRequestCount_eq_countSince, startOfLocalDay_zero]
    unfold countSince
    rw [hnil]
    rfl
  · unfold countSince
    rw [hnil]
    rfl

/-- C2 (amended) at the concrete boundary instants of the claim, with a
zero timezone offset. -/
theorem C2_amended_witness :
    (∀ r ∈ [(⟨"u", 1704153599000⟩ : UsageRecord)],
        r.createdAt < startOfUTCDay 1704153601000) ∧
    Queries.getUserDailyRequestCount [⟨"u", 1704153599000⟩] 0 1704153601000 "u" = 0 :=
  ⟨by decide,
   (C2_amended_utc_window [⟨"u", 1704153599000⟩] 1704153601000 "u" (by decide)).2.1⟩

/-- C3: a privileged user always receives `{allowed := true, remaining := -1,
limit := -1}`, and the decision does not depend on the usage ledger or the
clock. -/
theorem C3_privileged_bypass (users : List User) (tbl tbl' : List UsageRecord)
    (tz tz' now now' : Int) (uid : String)
    (h : Queries.isUserAdmin users uid = true) :
    Queries.checkRateLimit users tbl tz now uid
      = { allowed := true, remaining := -1, limit := -1 } ∧
    Queries.checkRateLimit users tbl tz now uid
      = Queries.checkRateLimit users tbl' tz' now' uid := by
  unfold Queries.checkRateLimit
  rw [h]
  exact ⟨rfl, rfl⟩

/-- C3 at a concrete admin with a non-empty usage history. -/
theorem C3_witness :
    Queries.isUserAdmin [⟨"a", true⟩] "a" = true ∧
    Queries.checkRateLimit [⟨"a", true⟩] [⟨"a", 3⟩, ⟨"a", 4⟩] 0 10 "a"
      = { allowed := true, remaining := -1, limit := -1 } :=
  ⟨by decide,
   (C3_privileged_bypass [⟨"a", true⟩] [⟨"a", 3⟩, ⟨"a", 4⟩] [] 0 0 10 0 "a" (by decide)).1⟩

/-- C9 fails: at 2024-01-02T00:00:01Z with server timezone UTC+1
(`getTimezoneOffset() = -60`) and one usage record from 2024-01-01T23:59:59Z,
the route module's `checkRateLimit` (UTC window) returns `true` while the
`allowed` field of queries.ts's `checkRateLimit` (local window) is `false`. -/
theorem C9_counterexample :
    Route.checkRateLimit [] [⟨"u", 1704153599000⟩] 1704153601000 "u" = true ∧
    (Queries.checkRateLimit [] [⟨"u", 1704153599000⟩] (-60) 1704153601000 "u").allowed
      = false := by
  decide

/-- C9 (amended): when the server timezone offset is zero, the boolean
returned by the route module's `checkRateLimit` equals the `allowed` field
of the decision returned by queries.ts's `checkRateLimit`, for every user,
ledger and instant. -/
theorem C9_amended_equivalence (users : List User) (tbl : List UsageRecord)
    (now : Int) (uid : String) :
    Route.checkRateLimit users tbl now uid
      = (Queries.checkRateLimit users tbl 0 now uid).allowed := by
  unfold Route.checkRateLimit Queries.checkRateLimit
  rw [isUserAdmin_eq_lookup]
  cases h : ((users.filter (fun u => u.id == uid)).head?.map User.isAdmin).getD false
  · simp only [h, if_false]
    rw [getUserDailyRequestCount_eq_countSince, startOfLocalDay_zero]
    rfl
  · simp only [h, if_true]

/-- C10: `getUserDailyRequestCount` is total and never negative; when the
user has no usage records in the window it returns 0, and the `|| 0` guard
maps an absent aggregate row, and a zero count, to 0. -/
theorem C10_count_total_nonneg :
    (∀ (tbl : List UsageRecord) (tz now : Int) (uid : String),
      0 ≤ Queries.getUserDailyRequestCount tbl tz now uid) ∧
    (∀ (tbl : List UsageRecord) (tz now : Int) (uid : String),
      rowsSince tbl uid (startOfLocalDay tz now) = [] →
      Queries.getUserDailyRequestCount tbl tz now uid = 0) ∧
    Queries.jsCountOrZero none = 0 ∧ Queries.jsCountOrZero (some 0) = 0 := by
  refine ⟨?_, ?_, rfl, rfl⟩
  · intro tbl tz now uid
    rw [getUserDailyRequestCount_eq_countSince]
    exact countSince_nonneg _ _ _
  · intro tbl tz now uid h
    rw [getUserDailyRequestCount_eq_countSince]
    unfold countSince
    rw [h]
    rfl

/-- C10 at a concrete ledger holding no rows for the queried user. -/
theorem C10_witness :
    rowsSince [⟨"v", 5⟩] "u" (startOfLocalDay 0 10) = [] ∧
    Queries.getUserDailyRequestCount [⟨"v", 5⟩] 0 10 "u" = 0 :=
  ⟨by decide, C10_count_total_nonneg.2.1 [⟨"v", 5⟩] 0 10 "u" (by decide)⟩

/-- C4: for a non-privileged user, a successful check at instant `now`
immediately followed by recording a usage leaves at most `limit` of the
user's records inside the current day window. -/
theorem C4_check_then_record_invariant (users : List User) (tbl : List UsageRecord)
    (tz now : Int) (uid : String)
    (hadmin : Queries.isUserAdmin users uid = false)
    (hallowed : (Queries.checkRateLimit users tbl tz now uid).allowed = true) :
    countSince (Queries.addUserRequest tbl now uid) uid (startOfLocalDay tz now)
      ≤ Queries.DAILY_REQUEST_LIMIT := by
  rw [checkRateLimit_nonadmin users tbl tz now uid hadmin] at hallowed
  have hlt : countSince tbl uid (startOfLocalDay tz now) < Queries.DAILY_REQUEST_LIMIT := by
    simpa using hallowed
  show countSince (tbl ++ [⟨uid, now⟩]) uid (startOfLocalDay tz now) ≤ _
  rw [countSince_append_self]
  split <;> omega

/-- C4 at a concrete fresh user. -/
theorem C4_witness :
    Queries.isUserAdmin [⟨"u", false⟩] "u" = false ∧
    (Queries.checkRateLimit [⟨"u", false⟩] [] 0 10 "u").allowed = true ∧
    countSince (Queries.addUserRequest [] 10 "u") "u" (startOfLocalDay 0 10)
      ≤ Queries.DAILY_REQUEST_LIMIT :=
  ⟨by decide, by decide,
   C4_check_then_record_invariant [⟨"u", false⟩] [] 0 10 "u" (by decide) (by decide)⟩

/-- C5: with the limit constant at 1, a fresh non-privileged user is granted
`{true, 1, 1}` and, after one recorded usage at the same instant, denied with
`{false, 0, 1}`; in general a non-privileged user whose daily count equals
the limit gets `allowed = false` and `remaining = 0`. -/
theorem C5_limit_reached :
    (∀ tz now : Int,
      Queries.checkRateLimit [⟨"A", false⟩] [] tz now "A" = ⟨true, 1, 1⟩ ∧
      Queries.checkRateLimit [⟨"A", false⟩] (Queries.addUserRequest [] now "A") tz now "A"
        = ⟨false, 0, 1⟩) ∧
    (∀ (users : List User) (tbl : List UsageRecord) (tz now : Int) (uid : String),
      Queries.isUserAdmin users uid = false →
      Queries.getUserDailyRequestCount tbl tz now uid = Queries.DAILY_REQUEST_LIMIT →
      Queries.checkRateLimit users tbl tz now uid
        = ⟨false, 0, Queries.DAILY_REQUEST_LIMIT⟩) := by
  have hA : Queries.isUserAdmin [⟨"A", false⟩] "A" = false := by decide
  constructor
  · intro tz now
    constructor
    · rw [checkRateLimit_nonadmin _ _ _ _ _ hA]
      have h0 : countSince [] "A" (startOfLocalDay tz now) = 0 := rfl
      rw [h0]
      decide
    · rw [checkRateLimit_nonadmin _ _ _ _ _ hA]
      have h1 : countSince (Queries.addUserRequest [] now "A") "A" (startOfLocalDay tz now)
          = 1 := by
        show countSince ([] ++ [⟨"A", now⟩]) "A" (startOfLocalDay tz now) = 1
        rw [countSince_append_self, if_pos (startOfLocalDay_le tz now)]
        norm_num [countSince, rowsSince]
      rw [h1]
      decide
  · intro users tbl tz now uid hadmin hcount
    rw [getUserDailyRequestCount_eq_countSince] at hcount
    rw [checkRateLimit_nonadmin users tbl tz now uid hadmin, hcount]
    simp [Queries.RateLimitDecision.mk.injEq, sub_self, lt_irrefl]

/-- C5 at the concrete scenario of the claim (and a user at the limit). -/
theorem C5_witness :
    Queries.checkRateLimit [⟨"A", false⟩] [] 0 20 "A" = ⟨true, 1, 1⟩ ∧
    Queries.checkRateLimit [⟨"A", false⟩] (Queries.addUserRequest [] 20 "A") 0 20 "A"
      = ⟨false, 0, 1⟩ ∧
    Queries.checkRateLimit [⟨"B", false⟩] [⟨"B", 7⟩] 0 9 "B"
      = ⟨false, 0, Queries.DAILY_REQUEST_LIMIT⟩ :=
  ⟨(C5_limit_reached.1 0 20).1, (C5_limit_reached.1 0 20).2,
   C5_limit_reached.2 [⟨"B", false⟩] [⟨"B", 7⟩] 0 9 "B" (by decide) (by decide)⟩

/-- C6: `addUserRequest` appends exactly one record carrying the current
instant as `createdAt`, and a count over any window containing that instant,
taken immediately after, exceeds the count taken immediately before by
exactly one. -/
theorem C6_record_counted_once (tbl : List UsageRecord) (uid : String)
    (now since : Int) (h : since ≤ now) :
    Queries.addUserRequest tbl now uid = tbl ++ [{ userId := uid, createdAt := now }] ∧
    countSince (Queries.addUserRequest tbl now uid) uid since
      = countSince tbl uid since + 1 := by
  refine ⟨rfl, ?_⟩
  show countSince (tbl ++ [⟨uid, now⟩]) uid since = _
  rw [countSince_append_self, if_pos h]

/-- C6 at a concrete ledger and window. -/
theorem C6_witness :
    (0 : Int) ≤ 5 ∧
    countSince (Queries.addUserRequest [⟨"u", 3⟩] 5 "u") "u" 0
      = countSince [⟨"u", 3⟩] "u" 0 + 1 :=
  ⟨by decide, (C6_record_counted_once [⟨"u", 3⟩] "u" 5 0 (by decide)).2⟩

/-- C7: a user id absent from the users table is not privileged:
`isUserAdmin` returns false and both rate-limit checks behave exactly as for
a stored non-admin user with the same id; no error surfaces from the lookup
(both checks stay total functions into decisions). -/
theorem C7_unknown_user_not_privileged (users : List User) (uid : String)
    (h : ∀ u ∈ users, u.id ≠ uid) :
    Queries.isUserAdmin users uid = false ∧
    (∀ (tbl : List UsageRecord) (tz now : Int),
      Queries.checkRateLimit users tbl tz now uid
        = Queries.checkRateLimit [⟨uid, false⟩] tbl tz now uid) ∧
    (∀ (tbl : List UsageRecord) (now : Int),
      Route.checkRateLimit users tbl now uid
        = Route.checkRateLimit [⟨uid, false⟩] tbl now uid) := by
  have habs : Queries.isUserAdmin users uid = false := isUserAdmin_of_absent users uid h
  have hknown : Queries.isUserAdmin [⟨uid, false⟩] uid = false := by
    simp [Queries.isUserAdmin, List.filter]
  refine ⟨habs, ?_, ?_⟩
  · intro tbl tz now
    rw [checkRateLimit_nonadmin users tbl tz now uid habs,
        checkRateLimit_nonadmin [⟨uid, false⟩] tbl tz now uid hknown]
  · intro tbl now
    unfold Route.checkRateLimit
    rw [filter_users_absent users uid h]
    simp [List.filter]

/-- C7 at a concrete store not containing the queried id. -/
theorem C7_witness :
    (∀ u ∈ [(⟨"v", true⟩ : User)], u.id ≠ "ghost") ∧
    Queries.isUserAdmin [⟨"v", true⟩] "ghost" = false :=
  ⟨by decide, (C7_unknown_user_not_privileged [⟨"v", true⟩] "ghost" (by decide)).1⟩

/-- C8: the POST handler records usage immediately after the rate-limit check
passes and before validating the body or chat ownership, so an admitted
request rejected with 400 (empty messages array) or 404 (chat missing or
owned by another user) still consumes one unit of the daily quota. -/
theorem C8_quota_spent_on_rejects (uid : String) (body : ChatBody)
    (users : List User) (chats : List Chat) (tbl : List UsageRecord) (now : Int)
    (hallow : Route.checkRateLimit users tbl now uid = true) :
    (body.messages = [] →
      Route.POST (some uid) body users chats tbl now
        = { status := 400, requests := tbl ++ [{ userId := uid, createdAt := now }] }) ∧
    (∀ cid, body.messages ≠ [] → body.chatId = some cid →
      (∀ c ∈ chats, c.id = cid → c.userId ≠ uid) →
      Route.POST (some uid) body users chats tbl now
        = { status := 404, requests := tbl ++ [{ userId := uid, createdAt := now }] }) := by
  constructor
  · intro hmsg
    unfold Route.POST
    simp [hallow, hmsg, Route.recordRequest]
  · intro cid hmsg hcid hown
    have hlen : ¬ body.messages.length = 0 := by
      simpa [List.length_eq_zero] using hmsg
    unfold Route.POST
    cases hh : chats.filter (fun c => c.id == cid) with
    | nil => simp [hallow, hcid, hlen, hh, Route.recordRequest]
    | cons chat rest =>
      have hmem : chat ∈ chats.filter (fun c => c.id == cid) := by
        rw [hh]; exact List.mem_cons_self chat rest
      rw [List.mem_filter] at hmem
      have hne : chat.userId ≠ uid :=
        hown chat hmem.1 (by simpa using hmem.2)
      simp [hallow, hcid, hlen, hh, Route.recordRequest, hne]

/-- C8 at a concrete admitted-then-rejected request (both reject paths). -/
theorem C8_witness :
    Route.checkRateLimit [] [] 0 "u" = true ∧
    Route.POST (some "u") ⟨[], none⟩ [] [] [] 0
      = { status := 400, requests := [⟨"u", 0⟩] } ∧
    Route.POST (some "u") ⟨["hi"], some "c"⟩ [] [] [] 0
      = { status := 404, requests := [⟨"u", 0⟩] } :=
  ⟨by decide,
   (C8_quota_spent_on_rejects "u" ⟨[], none⟩ [] [] [] 0 (by decide)).1 rfl,
   (C8_quota_spent_on_rejects "u" ⟨["hi"], some "c"⟩ [] [] [] 0 (by decide)).2 "c"
     (by simp) rfl (by simp)⟩
